import Mathlib

/-!
Shallow embedding of the Job execution and log-streaming core of the
wizelit-sdk repository (`src/wizelit_sdk/agent_wrapper/job.py`,
`agent_wrapper.py`, `streaming.py`).

Conventions of the embedding:
* Python strings are `String`; machine time is passed in as data
  (timestamps are `String` arguments where the code formats
  `time.strftime("%H:%M:%S")`, arrival clocks are `Nat` where the code
  reads an event-loop clock).
* A value returned by a unit of work (`Any` in Python) is `PyVal`; the
  `isinstance(result, (str, dict))` check of `Job.run` becomes
  `PyVal.isStrOrDict`.
* Best-effort external effects (`persist_to_db`, publishing to Redis)
  touch no in-memory job state and are not part of the state the claims
  quantify over, so they are modelled as identity on `JobState`; the
  in-memory field assignments around them are kept in source order.
* An exception is identified by its message string (`str(e)`), which is
  the only part of it the code stores and logs.
-/

namespace Wizelit

/-- Python runtime value returned by a tool's unit of work, as far as
`Job.run` inspects it: a string, a dict (structured mapping, payload kept
abstract as key/value string pairs), `None`, or anything else. -/
inductive PyVal where
  | vStr (s : String)
  | vDict (entries : List (String × String))
  | vNone
  | vOther (tag : String)
deriving DecidableEq

/-- Embedding of the check `isinstance(result, (str, dict))` in `Job.run`. -/
def PyVal.isStrOrDict : PyVal → Bool
  | .vStr _ => true
  | .vDict _ => true
  | _ => false

/-- In-memory state of one `Job` instance: the fields `_id`, `_status`,
`_result`, `_error`, `_logs` of `job.py`. -/
structure JobState where
  id : String
  status : String
  result : Option PyVal
  error : Option String
  logs : List String
deriving DecidableEq

/-- Formatted display string built by `MemoryLogHandler.emit`:
`f"[{record.levelname}] [{ts}] {record.getMessage()}"`. -/
def formatLogEntry (levelName ts msg : String) : String :=
  "[" ++ levelName ++ "] [" ++ ts ++ "] " ++ msg

/-- One call to the job's logger: the level name and numeric level of the
Python logging record (DEBUG=10, INFO=20, WARNING=30, ERROR=40,
CRITICAL=50), the wall-clock timestamp at emission, and the message. -/
structure LogCall where
  levelName : String
  levelNo : Nat
  ts : String
  msg : String
deriving DecidableEq

/-- Effect of one logger call on the in-memory buffer. `_setup_logger`
sets both the logger level and the `MemoryLogHandler` level to
`logging.INFO` (numeric 20), so a record reaches `MemoryLogHandler.emit`
— which appends the formatted entry — exactly when its numeric level is
at least 20; below that the call appends nothing. -/
def loggerLog (logs : List String) (c : LogCall) : List String :=
  if 20 ≤ c.levelNo then logs ++ [formatLogEntry c.levelName c.ts c.msg] else logs

/-- Sequence of logger calls against the same buffer, in call order. -/
def loggerLogAll (logs : List String) : List LogCall → List String
  | [] => logs
  | c :: cs => loggerLogAll (loggerLog logs c) cs

/-- Status setter (`@status.setter` in `job.py`): assigns `_status`; the
subsequent publish of a status-change event to Redis is a best-effort
external effect that mutates no job field. -/
def setStatus (j : JobState) (v : String) : JobState :=
  { j with status := v }

/-- Result setter (`@result.setter`): plain assignment of `_result`. -/
def setResultField (j : JobState) (v : Option PyVal) : JobState :=
  { j with result := v }

/-- Error setter (`@error.setter`): plain assignment of `_error`. -/
def setErrorField (j : JobState) (v : Option String) : JobState :=
  { j with error := v }

/-- Constructor `Job.__init__`: `self._id = job_id or f"JOB-{str(uuid.uuid4())[:8]}"`.
Python `or` takes the right operand when `job_id` is `None` or falsy — and the
only falsy string is `""` — so a supplied empty identifier is replaced by a
generated one. `uuidSuffix` stands for the fresh value `str(uuid.uuid4())[:8]`.
The remaining fields are initialised as in the source: status `"running"`,
empty log list, result and error `None`. -/
def jobInit (jobId : Option String) (uuidSuffix : String) : JobState :=
  { id :=
      match jobId with
      | some s => if s = "" then "JOB-" ++ uuidSuffix else s
      | none => "JOB-" ++ uuidSuffix
    status := "running"
    result := none
    error := none
    logs := [] }

/-- Body of the `try/except` of the `_runner` closure in `Job.run`, from the
point the awaited coroutine settles. `j` is the job state at that moment
(heartbeat log lines appended during the await, and any external status
override, are already part of it); `outcome` is how the coroutine settled;
`ts` is the wall clock at the error log emission. On success the result is
stored when it is a string or dict, and status is set to `"completed"` only
if still `"running"`; the stored value is also the task's return value. On
failure the error message is stored, status is set to `"failed"`, an
error-level line is logged through the job logger, and the exception
propagates as the task's outcome. `persist_to_db` calls in between are
external effects (identity here). -/
def runFinish (j : JobState) (ts : String) (outcome : Except String PyVal) :
    JobState × Except String PyVal :=
  match outcome with
  | .ok v =>
      let j1 := if v.isStrOrDict then setResultField j (some v) else j
      let j2 := if j1.status = "running" then setStatus j1 "completed" else j1
      (j2, .ok v)
  | .error m =>
      let j1 := setErrorField j (some m)
      let j2 := setStatus j1 "failed"
      let j3 := { j2 with logs := loggerLog j2.logs ⟨"ERROR", 40, ts, "❌ [System] Error: " ++ m⟩ }
      (j3, .error m)

/-- First statement of `_runner`: `self.status = "running"` (followed by a
best-effort persist). -/
def runStart (j : JobState) : JobState :=
  setStatus j "running"

/-- Position of control in the `_heartbeat` loop between two reads of
`self._status`: about to evaluate the `while` condition, or just woken
from the sleep and about to run the in-loop re-check. Between the in-loop
re-check and the `logger.info` call there is no await, so no other task
can interleave there. -/
inductive HbPhase where
  | whileCheck
  | afterSleep
deriving DecidableEq

/-- Heartbeat log message (`f"⏳ Still working... ({elapsed}s)"`). -/
def heartbeatLine (elapsed : Nat) : String :=
  "⏳ Still working... (" ++ toString elapsed ++ "s)"

/-- Embedding of `Job._heartbeat`. The loop alternates status observations:
`while self._status == "running"` (exit when false), `await asyncio.sleep`
(a suspension point, during which the status may change), a re-check
`if self._status != "running": break`, then `logger.info` of a heartbeat
line. Each element of `obs` is one observation of `self._status` paired
with the elapsed whole seconds at that point; the list ends where the task
is cancelled. The value is the list of heartbeat lines the task appends. -/
def heartbeatLoop : HbPhase → List (String × Nat) → List String
  | _, [] => []
  | .whileCheck, (s, _) :: rest =>
      if s = "running" then heartbeatLoop .afterSleep rest else []
  | .afterSleep, (s, e) :: rest =>
      if s ≠ "running" then [] else heartbeatLine e :: heartbeatLoop .whileCheck rest

/-- Payload of one Redis Pub/Sub message as far as `subscribe_logs`
inspects it: either `json.loads` raises `JSONDecodeError` (`malformed`),
or it yields an object whose `.get("status")` is `status` (absent for log
events, present for status events). -/
inductive Payload where
  | malformed
  | decoded (status : Option String)
deriving DecidableEq

/-- One message delivered by `pubsub.listen()`: the event-loop clock at
its arrival (the loop body runs only then), the message type (`"message"`
for real payloads; subscribe confirmations have other types), and the
payload. -/
structure PubSubMsg where
  time : Nat
  mtype : String
  payload : Payload
deriving DecidableEq

/-- Reason a subscription's event sequence ended, as observed in the
model: the `break` on `elapsed > timeout` at the arrival instant `t`, or
the `break` after yielding an event whose status field is terminal. -/
inductive CloseReason where
  | timeoutAt (t : Nat)
  | terminal (status : String)
deriving DecidableEq

/-- Outcome of running the `subscribe_logs` loop over a sequence of
arrivals: the status fields of the events yielded to the consumer, in
arrival order, and whether (and why) the generator broke out of the loop.
`closed = none` means the loop consumed every listed arrival and is still
suspended inside `pubsub.listen()` waiting for the next message. -/
structure SubOutcome where
  yielded : List (Option String)
  closed : Option CloseReason
deriving DecidableEq

/-- Timeout test at the top of the loop body of `subscribe_logs`:
`if timeout and start_time:` followed by `elapsed > timeout`. Python
truthiness makes a timeout of `0` inert (`start_time` is then never set,
since it is assigned under `if timeout else None`). `start` is the
event-loop clock at subscription, `now` the clock at the message arrival
being handled. -/
def timeoutHit (timeout : Option Nat) (start now : Nat) : Bool :=
  match timeout with
  | none => false
  | some t => if t = 0 then false else decide (now - start > t)

/-- Embedding of the `async for message in pubsub.listen()` loop of
`LogStreamer.subscribe_logs`, run over a finite sequence of arrivals. Per
iteration, in source order: the timeout check breaks without yielding;
non-`"message"` types are ignored; a payload that fails JSON decoding is
logged and skipped; a decoded event is yielded, and the loop breaks after
yielding it when its status field is `"completed"` or `"failed"`. -/
def subscribeLoop (timeout : Option Nat) (start : Nat) :
    List PubSubMsg → SubOutcome
  | [] => ⟨[], none⟩
  | m :: rest =>
      if timeoutHit timeout start m.time then ⟨[], some (.timeoutAt m.time)⟩
      else if m.mtype = "message" then
        match m.payload with
        | .malformed => subscribeLoop timeout start rest
        | .decoded st =>
            if st = some "completed" then ⟨[st], some (.terminal "completed")⟩
            else if st = some "failed" then ⟨[st], some (.terminal "failed")⟩
            else
              ⟨st :: (subscribeLoop timeout start rest).yielded,
                (subscribeLoop timeout start rest).closed⟩
      else subscribeLoop timeout start rest

/-- In-memory job registry of `WizelitAgentWrapper`: the dict
`self._jobs: Dict[str, Job]`, as a lookup function. -/
def Registry : Type := String → Option JobState

/-- Accessor `WizelitAgentWrapper.get_job_logs`: `self._jobs.get(job_id)`,
`None` when absent, else the job's logs. -/
def getJobLogsW (r : Registry) (jobId : String) : Option (List String) :=
  match r jobId with
  | none => none
  | some j => some j.logs

/-- Accessor `WizelitAgentWrapper.get_job_status`. -/
def getJobStatusW (r : Registry) (jobId : String) : Option String :=
  match r jobId with
  | none => none
  | some j => some j.status

/-- Mutator `WizelitAgentWrapper.set_job_status`: `False` and no change
when the id is unknown; else assign through the status setter and return
`True`. The registry holds the same job object, its status field updated. -/
def setJobStatusW (r : Registry) (jobId : String) (st : String) :
    Bool × Registry :=
  match r jobId with
  | none => (false, r)
  | some j => (true, fun k => if k = jobId then some (setStatus j st) else r k)

/-- Mutator `WizelitAgentWrapper.set_job_result`. -/
def setJobResultW (r : Registry) (jobId : String) (v : Option PyVal) :
    Bool × Registry :=
  match r jobId with
  | none => (false, r)
  | some j => (true, fun k => if k = jobId then some (setResultField j v) else r k)

/-- Mutator `WizelitAgentWrapper.set_job_error`. -/
def setJobErrorW (r : Registry) (jobId : String) (e : Option String) :
    Bool × Registry :=
  match r jobId with
  | none => (false, r)
  | some j => (true, fun k => if k = jobId then some (setErrorField j e) else r k)

/-- Mutable store of Python list objects, for the aliasing behaviour of
`Job.logs`: an address-indexed heap of string lists. A Python variable of
list type holds an address into this heap. -/
def Heap : Type := Nat → List String

/-- Identity of a `Job` as a holder of a log-list reference: `_logs` is a
list object, i.e. an address. -/
structure JobRef where
  logsAddr : Nat
deriving DecidableEq

/-- Property `Job.logs`: `return self._logs` returns the list reference
itself — the very address the job's handlers append through — not a copy. -/
def jobLogsProp (j : JobRef) : Nat :=
  j.logsAddr

/-- Contents of the job's internally owned log buffer under a heap. -/
def jobBuffer (h : Heap) (j : JobRef) : List String :=
  h j.logsAddr

/-- Effect of a caller appending an element to a list it holds by
reference (e.g. `wrapper.get_job_logs(job_id).append(x)` or
`job.logs.append(x)`). -/
def heapAppend (h : Heap) (a : Nat) (x : String) : Heap :=
  fun b => if b = a then h b ++ [x] else h b

/-- Reference-level reading of `WizelitAgentWrapper.get_job_logs` over a
registry of job references: `return job.logs` hands out the job's own
list address when the job exists. -/
def getJobLogsRef (r : String → Option JobRef) (jobId : String) : Option Nat :=
  match r jobId with
  | none => none
  | some j => some (jobLogsProp j)

/-- Registration-time check of `WizelitAgentWrapper.ingest` plus the
registration step. `params` are the parameter names of the decorated
function's signature, so `has_job_param = sig.parameters.get('job') is not
None` becomes membership of `"job"`. When `is_long_running` is set and no
`job` parameter is declared, the decorator raises `ValueError` before the
tool is registered with the server; otherwise the tool is appended to the
registered set. -/
def ingestDecorate (isLongRunning : Bool) (name : String)
    (params : List String) (tools : List (String × Bool)) :
    Except String (List (String × Bool)) :=
  if isLongRunning && !(params.contains "job") then
    .error "is_long_running is True but 'job' parameter is not provided"
  else
    .ok (tools ++ [(name, isLongRunning)])

/-- Concrete job used to exercise the registry accessors. -/
def sampleJob : JobState :=
  ⟨"J1", "running", none, none, ["[INFO] [10:00:00] started"]⟩

/-- Concrete registry holding exactly `sampleJob` under id `"J1"`. -/
def sampleRegistry : Registry :=
  fun k => if k = "J1" then some sampleJob else none

/-- Concrete heap for the aliasing scenarios: every address holds one
formatted log line. -/
def sampleHeap : Heap :=
  fun _ => ["[INFO] [00:00:00] a"]

/-- Concrete job reference whose log buffer lives at address 7. -/
def sampleJobRef : JobRef :=
  ⟨7⟩

/-- Concrete reference-level registry holding `sampleJobRef` under `"J1"`. -/
def sampleRefRegistry : String → Option JobRef :=
  fun k => if k = "J1" then some sampleJobRef else none

/-- Concrete arrival sequence for the subscription scenarios: a log event,
a malformed payload, then a `completed` status event. -/
def sampleArrivals : List PubSubMsg :=
  [⟨1, "message", .decoded none⟩,
   ⟨2, "message", .malformed⟩,
   ⟨3, "message", .decoded (some "completed")⟩]

/-! Helper lemmas shared by the claim theorems. -/

/-- Appending behaviour of a single logger call: the buffer is only ever
extended at the end. -/
theorem loggerLog_eq_append (logs : List String) (c : LogCall) :
    ∃ t, loggerLog logs c = logs ++ t := by
  unfold loggerLog
  split
  · exact ⟨[formatLogEntry c.levelName c.ts c.msg], rfl⟩
  · exact ⟨[], (List.append_nil logs).symm⟩

/-- Appending behaviour of a sequence of logger calls: the prior buffer is
a prefix of the resulting buffer, so earlier entries are never removed,
reordered or mutated. -/
theorem loggerLogAll_eq_append (cs : List LogCall) :
    ∀ logs, ∃ t, loggerLogAll logs cs = logs ++ t := by
  induction cs with
  | nil => exact fun logs => ⟨[], (List.append_nil logs).symm⟩
  | cons c cs ih =>
      intro logs
      obtain ⟨t1, h1⟩ := loggerLog_eq_append logs c
      obtain ⟨t2, h2⟩ := ih (loggerLog logs c)
      refine ⟨t1 ++ t2, ?_⟩
      show loggerLogAll (loggerLog logs c) cs = logs ++ (t1 ++ t2)
      rw [h2, h1, List.append_assoc]

/-- Exact buffer contents when every call in the sequence is at numeric
level at least `INFO`: one formatted entry per call, in call order. -/
theorem loggerLogAll_map (cs : List LogCall) :
    ∀ logs, (∀ c ∈ cs, 20 ≤ c.levelNo) →
      loggerLogAll logs cs
        = logs ++ cs.map fun c => formatLogEntry c.levelName c.ts c.msg := by
  induction cs with
  | nil => intro logs _; exact (List.append_nil logs).symm
  | cons c cs ih =>
      intro logs h
      have hc : 20 ≤ c.levelNo := h c (List.mem_cons_self c cs)
      have hrest : ∀ c' ∈ cs, 20 ≤ c'.levelNo :=
        fun c' hc' => h c' (List.mem_cons_of_mem _ hc')
      show loggerLogAll (loggerLog logs c) cs = _
      rw [ih _ hrest]
      unfold loggerLog
      rw [if_pos hc]
      simp

/-- Vanishing of the heartbeat when no observation sees `"running"`:
whatever point of the loop control sits at, the task appends nothing. -/
theorem heartbeatLoop_nil_of_nonrunning (obs : List (String × Nat)) :
    ∀ phase, (∀ p ∈ obs, p.1 ≠ "running") → heartbeatLoop phase obs = [] := by
  induction obs with
  | nil => intro phase _; cases phase <;> rfl
  | cons p rest _ =>
      intro phase h
      obtain ⟨s, e⟩ := p
      have hp : s ≠ "running" := h (s, e) (List.mem_cons_self _ rest)
      cases phase
      · show (if s = "running" then heartbeatLoop .afterSleep rest else []) = []
        rw [if_neg hp]
      · show (if s ≠ "running" then []
            else heartbeatLine e :: heartbeatLoop .whileCheck rest) = []
        rw [if_pos hp]

/-- Characterisation of a subscription run that broke on a terminal
status event: the status is `"completed"` or `"failed"`, and the event
carrying it is the last one yielded. -/
theorem subscribeLoop_terminal_spec (timeout : Option Nat) (start : Nat) :
    ∀ (msgs : List PubSubMsg) (s : String),
      (subscribeLoop timeout start msgs).closed = some (.terminal s) →
      (s = "completed" ∨ s = "failed") ∧
      ∃ ys, (subscribeLoop timeout start msgs).yielded = ys ++ [some s] := by
  intro msgs
  induction msgs with
  | nil =>
      intro s h
      exact absurd h (by simp [subscribeLoop])
  | cons m rest ih =>
      intro s h
      by_cases ht : timeoutHit timeout start m.time = true
      · have hstep : subscribeLoop timeout start (m :: rest)
            = ⟨[], some (.timeoutAt m.time)⟩ := by
          simp [subscribeLoop, ht]
        rw [hstep] at h
        exact absurd h (by simp)
      · by_cases hm : m.mtype = "message"
        · cases hp : m.payload with
          | malformed =>
              have hstep : subscribeLoop timeout start (m :: rest)
                  = subscribeLoop timeout start rest := by
                simp [subscribeLoop, ht, hm, hp]
              rw [hstep] at h ⊢
              exact ih s h
          | decoded st =>
              by_cases hc : st = some "completed"
              · have hstep : subscribeLoop timeout start (m :: rest)
                    = ⟨[some "completed"], some (.terminal "completed")⟩ := by
                  simp [subscribeLoop, ht, hm, hp, hc]
                rw [hstep] at h
                simp at h
                subst h
                refine ⟨Or.inl rfl, [], ?_⟩
                rw [hstep]
                rfl
              · by_cases hf : st = some "failed"
                · have hstep : subscribeLoop timeout start (m :: rest)
                      = ⟨[some "failed"], some (.terminal "failed")⟩ := by
                    simp [subscribeLoop, ht, hm, hp, hc, hf]
                  rw [hstep] at h
                  simp at h
                  subst h
                  refine ⟨Or.inr rfl, [], ?_⟩
                  rw [hstep]
                  rfl
                · have hstep : subscribeLoop timeout start (m :: rest)
                      = ⟨st :: (subscribeLoop timeout start rest).yielded,
                          (subscribeLoop timeout start rest).closed⟩ := by
                    simp [subscribeLoop, ht, hm, hp, hc, hf]
                  have h' : (subscribeLoop timeout start rest).closed
                      = some (.terminal s) := by
                    rw [hstep] at h
                    exact h
                  obtain ⟨hor, ys, hys⟩ := ih s h'
                  refine ⟨hor, st :: ys, ?_⟩
                  rw [hstep]
                  show st :: (subscribeLoop timeout start rest).yielded
                    = (st :: ys) ++ [some s]
                  rw [hys]
                  rfl
        · have hstep : subscribeLoop timeout start (m :: rest)
              = subscribeLoop timeout start rest := by
            simp [subscribeLoop, ht, hm]
          rw [hstep] at h ⊢
          exact ih s h

/-- Characterisation of a subscription run that broke on the timeout
check: a non-zero timeout was configured, and the elapsed clock at the
triggering arrival strictly exceeded it — so the break happens only at an
arrival instant, never between arrivals. -/
theorem subscribeLoop_timeoutAt_spec (timeout : Option Nat) (start : Nat) :
    ∀ (msgs : List PubSubMsg) (t0 : Nat),
      (subscribeLoop timeout start msgs).closed = some (.timeoutAt t0) →
      ∃ t, timeout = some t ∧ t ≠ 0 ∧ t0 - start > t := by
  intro msgs
  induction msgs with
  | nil =>
      intro t0 h
      exact absurd h (by simp [subscribeLoop])
  | cons m rest ih =>
      intro t0 h
      by_cases ht : timeoutHit timeout start m.time = true
      · have hstep : subscribeLoop timeout start (m :: rest)
            = ⟨[], some (.timeoutAt m.time)⟩ := by
          simp [subscribeLoop, ht]
        rw [hstep] at h
        simp at h
        subst h
        cases timeout with
        | none => simp [timeoutHit] at ht
        | some t =>
            by_cases h0 : t = 0
            · simp [timeoutHit, h0] at ht
            · simp [timeoutHit, h0] at ht
              exact ⟨t, rfl, h0, ht⟩
      · by_cases hm : m.mtype = "message"
        · cases hp : m.payload with
          | malformed =>
              have hstep : subscribeLoop timeout start (m :: rest)
                  = subscribeLoop timeout start rest := by
                simp [subscribeLoop, ht, hm, hp]
              rw [hstep] at h
              exact ih t0 h
          | decoded st =>
              by_cases hc : st = some "completed"
              · have hstep : subscribeLoop timeout start (m :: rest)
                    = ⟨[some "completed"], some (.terminal "completed")⟩ := by
                  simp [subscribeLoop, ht, hm, hp, hc]
                rw [hstep] at h
                exact absurd h (by simp)
              · by_cases hf : st = some "failed"
                · have hstep : subscribeLoop timeout start (m :: rest)
                      = ⟨[some "failed"], some (.terminal "failed")⟩ := by
                    simp [subscribeLoop, ht, hm, hp, hc, hf]
                  rw [hstep] at h
                  exact absurd h (by simp)
                · have hstep : subscribeLoop timeout start (m :: rest)
                      = ⟨st :: (subscribeLoop timeout start rest).yielded,
                          (subscribeLoop timeout start rest).closed⟩ := by
                    simp [subscribeLoop, ht, hm, hp, hc, hf]
                  have h' : (subscribeLoop timeout start rest).closed
                      = some (.timeoutAt t0) := by
                    rw [hstep] at h
                    exact h
                  exact ih t0 h'
        · have hstep : subscribeLoop timeout start (m :: rest)
              = subscribeLoop timeout start rest := by
            simp [subscribeLoop, ht, hm]
          rw [hstep] at h
          exact ih t0 h

/-- Identity of the job is preserved by the whole `run` finalisation,
whichever way the work settled. -/
theorem runFinish_fst_id (j : JobState) (ts : String)
    (outcome : Except String PyVal) :
    (runFinish j ts outcome).1.id = j.id := by
  cases outcome with
  | ok v =>
      show (if (if v.isStrOrDict then setResultField j (some v) else j).status
              = "running"
            then setStatus (if v.isStrOrDict then setResultField j (some v) else j)
              "completed"
            else if v.isStrOrDict then setResultField j (some v) else j).id = j.id
      by_cases h1 : v.isStrOrDict = true <;>
        simp [h1, setResultField, setStatus] <;> split <;> rfl
  | error m => rfl

/-! Theorems settling the claims. -/

/-- Claim C1, counterexample. The claim asserts that after `Job.run`
finishes successful work the job's error is `None` for every job; but the
success branch of `_runner` never touches `_error`, so a job whose error
was set earlier (for instance by a previous failed run, or through
`set_job_error`) keeps it: with work returning the string `"ok"` while the
status is `"running"`, the job completes with result `"ok"` yet its error
is still non-`None`. -/
theorem claim_C1_counterexample :
    (runFinish ⟨"JOB-1", "running", none, some "old failure", []⟩ "12:00:00"
        (.ok (.vStr "ok"))).1.status = "completed" ∧
    (runFinish ⟨"JOB-1", "running", none, some "old failure", []⟩ "12:00:00"
        (.ok (.vStr "ok"))).1.result = some (.vStr "ok") ∧
    (runFinish ⟨"JOB-1", "running", none, some "old failure", []⟩ "12:00:00"
        (.ok (.vStr "ok"))).1.error ≠ none := by
  decide

/-- Claim C1, amended: for every job and every unit of work that completes
successfully returning a string or structured mapping value `v`, with the
status still `"running"` when the work finished, the job's result equals
`v`, its status equals `"completed"`, its error is unchanged from before
the work finished (hence `None` whenever it was `None`, as for a freshly
created job), its logs are untouched by the success branch, and the task's
own result equals `v`. -/
theorem claim_C1_amended (j : JobState) (v : PyVal) (ts : String)
    (hv : v.isStrOrDict = true) (hs : j.status = "running") :
    (runFinish j ts (.ok v)).1.result = some v ∧
    (runFinish j ts (.ok v)).1.status = "completed" ∧
    (runFinish j ts (.ok v)).1.error = j.error ∧
    (runFinish j ts (.ok v)).1.logs = j.logs ∧
    (runFinish j ts (.ok v)).2 = .ok v := by
  simp [runFinish, hv, setResultField, hs, setStatus]

/-- Witness for `claim_C1_amended` at a freshly created job and work
returning the string `"ok"`: both hypotheses hold and the conclusion
follows, with the error in particular equal to `none`. -/
theorem claim_C1_amended_witness :
    (PyVal.vStr "ok").isStrOrDict = true ∧
    (jobInit none "abc123de").status = "running" ∧
    ((runFinish (jobInit none "abc123de") "12:00:00" (.ok (.vStr "ok"))).1.result
        = some (.vStr "ok") ∧
      (runFinish (jobInit none "abc123de") "12:00:00" (.ok (.vStr "ok"))).1.status
        = "completed" ∧
      (runFinish (jobInit none "abc123de") "12:00:00" (.ok (.vStr "ok"))).1.error
        = (jobInit none "abc123de").error ∧
      (runFinish (jobInit none "abc123de") "12:00:00" (.ok (.vStr "ok"))).1.logs
        = (jobInit none "abc123de").logs ∧
      (runFinish (jobInit none "abc123de") "12:00:00" (.ok (.vStr "ok"))).2
        = .ok (.vStr "ok")) :=
  ⟨by decide, by decide,
    claim_C1_amended (jobInit none "abc123de") (.vStr "ok") "12:00:00"
      (by decide) (by decide)⟩

/-- Claim C2: for every job and every unit of work that raises an
exception with message `m`, the task returned by `Job.run` re-raises that
same exception to its awaiter, and afterwards the job's error equals `m`,
its status equals `"failed"`, its result is unchanged from its value
before the failure, and an error-level log entry mentioning `m` (the line
`[ERROR] [hh:mm:ss] ❌ [System] Error: m`) was appended to the job's log
buffer. -/
theorem claim_C2 (j : JobState) (m ts : String) :
    (runFinish j ts (.error m)).2 = .error m ∧
    (runFinish j ts (.error m)).1.error = some m ∧
    (runFinish j ts (.error m)).1.status = "failed" ∧
    (runFinish j ts (.error m)).1.result = j.result ∧
    (runFinish j ts (.error m)).1.logs
      = j.logs ++ [formatLogEntry "ERROR" ts ("❌ [System] Error: " ++ m)] := by
  simp [runFinish, setErrorField, setStatus, loggerLog]

/-- Claim C9: for every job, setting the result or the error is a plain
field mutation with no effect beyond that single field — after
`setResult(v)` the result equals `v` and status, error, logs and id are
unchanged; after `setError(e)` the error equals `e` and status, result,
logs and id are unchanged; repeated sets are last-write-wins. -/
theorem claim_C9 (j : JobState) (v v1 v2 : Option PyVal)
    (e e1 e2 : Option String) :
    (setResultField j v).result = v ∧
    (setResultField j v).status = j.status ∧
    (setResultField j v).error = j.error ∧
    (setResultField j v).logs = j.logs ∧
    (setResultField j v).id = j.id ∧
    (setErrorField j e).error = e ∧
    (setErrorField j e).status = j.status ∧
    (setErrorField j e).result = j.result ∧
    (setErrorField j e).logs = j.logs ∧
    (setErrorField j e).id = j.id ∧
    (setResultField (setResultField j v1) v2).result = v2 ∧
    (setErrorField (setErrorField j e1) e2).error = e2 := by
  simp [setResultField, setErrorField]

/-- Claim C10: a function decorated through `ingest` with
`is_long_running=True` whose signature has no parameter named `job` makes
the decorator raise `ValueError` at decoration time, before the tool is
registered; a function declaring a `job` parameter, or registered with
`is_long_running=False`, is accepted and registered. -/
theorem claim_C10 (b : Bool) (name : String) (params : List String)
    (tools : List (String × Bool)) :
    (b = true → params.contains "job" = false →
      ingestDecorate b name params tools
        = .error "is_long_running is True but 'job' parameter is not provided") ∧
    (params.contains "job" = true ∨ b = false →
      ingestDecorate b name params tools = .ok (tools ++ [(name, b)])) := by
  constructor
  · intro hb hj
    unfold ingestDecorate
    rw [hb, hj]
    rfl
  · rintro (hj | hb)
    · unfold ingestDecorate
      rw [hj]
      simp
    · unfold ingestDecorate
      rw [hb]
      simp

/-- Witness for `claim_C10`: a long-running function without a `job`
parameter is rejected before registration, while a long-running function
with one is registered. -/
theorem claim_C10_witness :
    ((["region"] : List String).contains "job" = false ∧
      ingestDecorate true "forecast_revenue" ["region"] []
        = .error "is_long_running is True but 'job' parameter is not provided") ∧
    ((["region", "job"] : List String).contains "job" = true ∧
      ingestDecorate true "forecast_revenue" ["region", "job"] []
        = .ok [("forecast_revenue", true)]) :=
  ⟨⟨by decide, (claim_C10 true "forecast_revenue" ["region"] []).1 rfl (by decide)⟩,
    ⟨by decide,
      (claim_C10 true "forecast_revenue" ["region", "job"] []).2 (Or.inl (by decide))⟩⟩

/-- Claim C8: for a job id absent from the in-memory registry,
`get_job_logs` and `get_job_status` return `None` (and, being total
lookups, never raise), and the three setters return `False` leaving the
registry untouched; for a registered id the setters return `True` and
update only the named field of that job, leaving every other registered
job unchanged. -/
theorem claim_C8 (r : Registry) (jobId : String) (st : String)
    (v : Option PyVal) (e : Option String) :
    (r jobId = none →
      getJobLogsW r jobId = none ∧
      getJobStatusW r jobId = none ∧
      setJobStatusW r jobId st = (false, r) ∧
      setJobResultW r jobId v = (false, r) ∧
      setJobErrorW r jobId e = (false, r)) ∧
    (∀ j, r jobId = some j →
      (setJobStatusW r jobId st).1 = true ∧
      (setJobStatusW r jobId st).2 jobId = some { j with status := st } ∧
      (∀ k, k ≠ jobId → (setJobStatusW r jobId st).2 k = r k) ∧
      (setJobResultW r jobId v).1 = true ∧
      (setJobResultW r jobId v).2 jobId = some { j with result := v } ∧
      (∀ k, k ≠ jobId → (setJobResultW r jobId v).2 k = r k) ∧
      (setJobErrorW r jobId e).1 = true ∧
      (setJobErrorW r jobId e).2 jobId = some { j with error := e } ∧
      (∀ k, k ≠ jobId → (setJobErrorW r jobId e).2 k = r k)) := by
  constructor
  · intro h
    simp [getJobLogsW, getJobStatusW, setJobStatusW, setJobResultW, setJobErrorW, h]
  · intro j hj
    refine ⟨?_, ?_, ?_, ?_, ?_, ?_, ?_, ?_, ?_⟩ <;>
      simp [setJobStatusW, setJobResultW, setJobErrorW, hj,
        setStatus, setResultField, setErrorField]
    · intro k hk
      simp [hk]
    · intro k hk
      simp [hk]
    · intro k hk
      simp [hk]

/-- Witness for `claim_C8` on `sampleRegistry`: the id `"missing"` is
unknown (lookups give `None`, setters give `False` and no change), and the
id `"J1"` is registered (the status setter returns `True` and updates only
that job's status). -/
theorem claim_C8_witness :
    sampleRegistry "missing" = none ∧
    (getJobLogsW sampleRegistry "missing" = none ∧
      getJobStatusW sampleRegistry "missing" = none ∧
      setJobStatusW sampleRegistry "missing" "completed" = (false, sampleRegistry) ∧
      setJobResultW sampleRegistry "missing" none = (false, sampleRegistry) ∧
      setJobErrorW sampleRegistry "missing" none = (false, sampleRegistry)) ∧
    sampleRegistry "J1" = some sampleJob ∧
    ((setJobStatusW sampleRegistry "J1" "completed").1 = true ∧
      (setJobStatusW sampleRegistry "J1" "completed").2 "J1"
        = some { sampleJob with status := "completed" } ∧
      (∀ k, k ≠ "J1" →
        (setJobStatusW sampleRegistry "J1" "completed").2 k = sampleRegistry k) ∧
      (setJobResultW sampleRegistry "J1" none).1 = true ∧
      (setJobResultW sampleRegistry "J1" none).2 "J1"
        = some { sampleJob with result := none } ∧
      (∀ k, k ≠ "J1" →
        (setJobResultW sampleRegistry "J1" none).2 k = sampleRegistry k) ∧
      (setJobErrorW sampleRegistry "J1" none).1 = true ∧
      (setJobErrorW sampleRegistry "J1" none).2 "J1"
        = some { sampleJob with error := none } ∧
      (∀ k, k ≠ "J1" →
        (setJobErrorW sampleRegistry "J1" none).2 k = sampleRegistry k)) :=
  ⟨by decide,
    (claim_C8 sampleRegistry "missing" "completed" none none).1 (by decide),
    by decide,
    (claim_C8 sampleRegistry "J1" "completed" none none).2 sampleJob (by decide)⟩

/-- Claim C3, counterexample. The claim asserts exactly one appended entry
per logger call for every sequence of calls; but `_setup_logger` sets both
the logger and the memory handler to level `INFO`, so a call below that
level — here a single `DEBUG` (numeric 10) call — appends nothing, leaving
zero entries instead of one. -/
theorem claim_C3_counterexample :
    loggerLogAll [] [⟨"DEBUG", 10, "00:00:00", "x"⟩] = [] ∧
    (loggerLogAll [] [⟨"DEBUG", 10, "00:00:00", "x"⟩]).length ≠ 1 := by
  decide

/-- Claim C3, amended: for every sequence of logger calls on a single job,
the prior buffer stays an unchanged prefix of the buffer (entries are
never removed, reordered or mutated in place), and when every call is at
numeric level at least `INFO` (20) — which holds for the named levels
INFO, WARNING, ERROR, CRITICAL — the buffer gains exactly one entry per
call, in call order, the i-th being `[LEVEL_i] [HH:MM:SS] msg_i` with the
wall-clock time of the call; calls below level 20 append nothing. -/
theorem claim_C3_amended (logs : List String) (cs : List LogCall) :
    (∃ t, loggerLogAll logs cs = logs ++ t) ∧
    ((∀ c ∈ cs, 20 ≤ c.levelNo) →
      loggerLogAll logs cs
        = logs ++ cs.map fun c => formatLogEntry c.levelName c.ts c.msg) :=
  ⟨loggerLogAll_eq_append cs logs, loggerLogAll_map cs logs⟩

/-- Witness for `claim_C3_amended` on three calls at levels INFO, WARNING
and ERROR against a non-empty buffer. -/
theorem claim_C3_amended_witness :
    (∀ c ∈ ([⟨"INFO", 20, "10:00:00", "step one"⟩,
        ⟨"WARNING", 30, "10:00:01", "careful"⟩,
        ⟨"ERROR", 40, "10:00:02", "boom"⟩] : List LogCall), 20 ≤ c.levelNo) ∧
    loggerLogAll ["[INFO] [09:59:59] old"]
        [⟨"INFO", 20, "10:00:00", "step one"⟩,
          ⟨"WARNING", 30, "10:00:01", "careful"⟩,
          ⟨"ERROR", 40, "10:00:02", "boom"⟩]
      = ["[INFO] [09:59:59] old"]
        ++ ([⟨"INFO", 20, "10:00:00", "step one"⟩,
            ⟨"WARNING", 30, "10:00:01", "careful"⟩,
            ⟨"ERROR", 40, "10:00:02", "boom"⟩] : List LogCall).map
          fun c => formatLogEntry c.levelName c.ts c.msg :=
  ⟨by decide, (claim_C3_amended _ _).2 (by decide)⟩

/-- Claim C5, counterexample. The claim asserts that reading a job's logs
yields a snapshot copy whose mutation leaves the job's buffer unchanged;
but `Job.logs` is `return self._logs` — the internal list object itself —
so appending `"x"` through the returned handle changes the job's own
buffer. -/
theorem claim_C5_counterexample :
    jobBuffer (heapAppend sampleHeap (jobLogsProp ⟨0⟩) "x") ⟨0⟩
      ≠ jobBuffer sampleHeap ⟨0⟩ := by
  decide

/-- Claim C5, amended: the logs accessor returns the live internal list —
`Job.logs` is the very address of the job's buffer, and
`get_job_logs` hands out that same address for a registered job — so a
mutation through the returned handle is a mutation of the job's own
buffer, visible to every subsequent read. -/
theorem claim_C5_amended (h : Heap) (j : JobRef) (x : String)
    (r : String → Option JobRef) (jobId : String) :
    jobLogsProp j = j.logsAddr ∧
    (r jobId = some j → getJobLogsRef r jobId = some (jobLogsProp j)) ∧
    jobBuffer (heapAppend h (jobLogsProp j) x) j = jobBuffer h j ++ [x] := by
  refine ⟨rfl, ?_, ?_⟩
  · intro hr
    simp [getJobLogsRef, hr]
  · simp [jobBuffer, heapAppend, jobLogsProp]

/-- Witness for `claim_C5_amended` at a concrete heap, job reference and
registry. -/
theorem claim_C5_amended_witness :
    sampleRefRegistry "J1" = some sampleJobRef ∧
    jobLogsProp sampleJobRef = sampleJobRef.logsAddr ∧
    getJobLogsRef sampleRefRegistry "J1" = some (jobLogsProp sampleJobRef) ∧
    jobBuffer (heapAppend sampleHeap (jobLogsProp sampleJobRef) "x") sampleJobRef
      = jobBuffer sampleHeap sampleJobRef ++ ["x"] :=
  ⟨by decide,
    (claim_C5_amended sampleHeap sampleJobRef "x" sampleRefRegistry "J1").1,
    (claim_C5_amended sampleHeap sampleJobRef "x" sampleRefRegistry "J1").2.1
      (by decide),
    (claim_C5_amended sampleHeap sampleJobRef "x" sampleRefRegistry "J1").2.2⟩

/-- Claim C6: once the job's status has left `"running"` — every later
observation by the heartbeat loop sees a non-running status — no further
heartbeat line is appended, however many more intervals elapse before the
task is cancelled: the lines emitted over the whole observation trace are
exactly those emitted before the status change. -/
theorem claim_C6 (phase : HbPhase) (pre post : List (String × Nat))
    (h : ∀ p ∈ post, p.1 ≠ "running") :
    heartbeatLoop phase (pre ++ post) = heartbeatLoop phase pre := by
  induction pre generalizing phase with
  | nil =>
      rw [List.nil_append, heartbeatLoop_nil_of_nonrunning post phase h]
      cases phase <;> rfl
  | cons p rest ih =>
      obtain ⟨s, e⟩ := p
      cases phase
      · show (if s = "running" then heartbeatLoop .afterSleep (rest ++ post) else [])
            = if s = "running" then heartbeatLoop .afterSleep rest else []
        by_cases hs : s = "running"
        · rw [if_pos hs, if_pos hs, ih]
        · rw [if_neg hs, if_neg hs]
      · show (if s ≠ "running" then []
              else heartbeatLine e :: heartbeatLoop .whileCheck (rest ++ post))
            = if s ≠ "running" then []
              else heartbeatLine e :: heartbeatLoop .whileCheck rest
        by_cases hs : s ≠ "running"
        · rw [if_pos hs, if_pos hs]
        · rw [if_neg hs, if_neg hs, ih]

/-- Witness for `claim_C6`: two running observations (one heartbeat line)
followed by three completed observations — the trailing observations add
no line. -/
theorem claim_C6_witness :
    (∀ p ∈ ([("completed", 10), ("completed", 15), ("completed", 20)] :
        List (String × Nat)), p.1 ≠ "running") ∧
    heartbeatLoop .whileCheck
        ([("running", 0), ("running", 5)]
          ++ [("completed", 10), ("completed", 15), ("completed", 20)])
      = heartbeatLoop .whileCheck [("running", 0), ("running", 5)] :=
  ⟨by decide, claim_C6 .whileCheck _ _ (by decide)⟩

/-- Claim C7, counterexample. The claim asserts that a supplied job
identifier becomes the job's id unchanged; but `__init__` computes
`job_id or f"JOB-..."` and Python `or` discards a falsy left operand, so a
supplied empty identifier is replaced by a generated one. -/
theorem claim_C7_counterexample :
    (jobInit (some "") "abc123de").id = "JOB-abc123de" ∧
    (jobInit (some "") "abc123de").id ≠ "" := by
  decide

/-- Claim C7, amended: a supplied non-empty identifier becomes the job's
id unchanged, while an absent or empty identifier yields a generated id of
the form `JOB-` followed by a random suffix; immediately after creation
the status is `"running"`, the logs are empty and result and error are
`None`; and the id is never changed by any of the state-mutating
operations (`run` start and finish, the status, result and error
setters). -/
theorem claim_C7_amended (jobId : Option String) (uuidSuffix : String)
    (j : JobState) (v : String) (rv : Option PyVal) (ev : Option String)
    (ts : String) (outcome : Except String PyVal) :
    (∀ s, jobId = some s → s ≠ "" → (jobInit jobId uuidSuffix).id = s) ∧
    ((jobId = none ∨ jobId = some "") →
      (jobInit jobId uuidSuffix).id = "JOB-" ++ uuidSuffix) ∧
    (jobInit jobId uuidSuffix).status = "running" ∧
    (jobInit jobId uuidSuffix).logs = [] ∧
    (jobInit jobId uuidSuffix).result = none ∧
    (jobInit jobId uuidSuffix).error = none ∧
    (runStart j).id = j.id ∧
    (setStatus j v).id = j.id ∧
    (setResultField j rv).id = j.id ∧
    (setErrorField j ev).id = j.id ∧
    (runFinish j ts outcome).1.id = j.id := by
  refine ⟨?_, ?_, rfl, rfl, rfl, rfl, rfl, rfl, rfl, rfl,
    runFinish_fst_id j ts outcome⟩
  · intro s hs hne
    subst hs
    simp [jobInit, hne]
  · rintro (h | h) <;> subst h <;> rfl

/-- Witness for `claim_C7_amended`: a supplied non-empty id `"my-job"` is
kept, an absent id generates `JOB-abc123de`, and the fresh job starts
running. -/
theorem claim_C7_amended_witness :
    ("my-job" : String) ≠ "" ∧
    (jobInit (some "my-job") "abc123de").id = "my-job" ∧
    (jobInit none "abc123de").id = "JOB-" ++ "abc123de" ∧
    (jobInit none "abc123de").status = "running" :=
  ⟨by decide,
    (claim_C7_amended (some "my-job") "abc123de" sampleJob "completed" none none
      "00:00:00" (.ok .vNone)).1 "my-job" rfl (by decide),
    (claim_C7_amended none "abc123de" sampleJob "completed" none none
      "00:00:00" (.ok .vNone)).2.1 (Or.inl rfl),
    (claim_C7_amended none "abc123de" sampleJob "completed" none none
      "00:00:00" (.ok .vNone)).2.2.1⟩

/-- Claim C4, counterexample. The claim asserts that a subscription with a
timeout never blocks past the timeout even if no further event arrives;
but the loop of `subscribe_logs` evaluates the timeout check only at the
top of an iteration of `async for message in pubsub.listen()` — that is,
only when a message arrives. With a 10-second timeout and no arrivals the
subscription never closes, and with a single non-terminal event arriving
at clock 20 it closes only then, 10 units past the deadline, without
yielding that event. -/
theorem claim_C4_counterexample :
    subscribeLoop (some 10) 0 [] = ⟨[], none⟩ ∧
    subscribeLoop (some 10) 0 [⟨20, "message", .decoded none⟩]
      = ⟨[], some (.timeoutAt 20)⟩ := by
  decide

/-- Claim C4, amended: the event sequence produced by
`subscribe(jobId, timeout)` terminates in exactly two cases — after
yielding a decoded event whose status field is `"completed"` or
`"failed"` (that event being the last one yielded), or at the arrival of a
message once the configured non-zero timeout has already elapsed (that
message not being yielded); the timeout is only checked at message
arrivals, so with no arriving messages the subscription stays open past
the timeout; and a message whose payload fails to decode as JSON is
skipped with a logged warning, neither raised to the consumer nor treated
as termination. -/
theorem claim_C4_amended (timeout : Option Nat) (start : Nat)
    (msgs : List PubSubMsg) :
    (∀ s, (subscribeLoop timeout start msgs).closed = some (.terminal s) →
      (s = "completed" ∨ s = "failed") ∧
      ∃ ys, (subscribeLoop timeout start msgs).yielded = ys ++ [some s]) ∧
    (∀ t0, (subscribeLoop timeout start msgs).closed = some (.timeoutAt t0) →
      ∃ t, timeout = some t ∧ t ≠ 0 ∧ t0 - start > t) ∧
    (∀ tm rest, msgs = ⟨tm, "message", .malformed⟩ :: rest →
      timeoutHit timeout start tm = false →
      subscribeLoop timeout start msgs = subscribeLoop timeout start rest) ∧
    (msgs = [] → subscribeLoop timeout start msgs = ⟨[], none⟩) := by
  refine ⟨fun s h => subscribeLoop_terminal_spec timeout start msgs s h,
    fun t0 h => subscribeLoop_timeoutAt_spec timeout start msgs t0 h, ?_, ?_⟩
  · rintro tm rest rfl hth
    simp [subscribeLoop, hth]
  · rintro rfl
    rfl

/-- Witness for `claim_C4_amended` on `sampleArrivals` (a log event, a
malformed payload, then a `completed` status event) with a 100-unit
timeout: the run closes on the terminal status, which is the last yielded
event. -/
theorem claim_C4_amended_witness :
    (subscribeLoop (some 100) 0 sampleArrivals).closed
      = some (.terminal "completed") ∧
    (("completed" = "completed" ∨ "completed" = "failed") ∧
      ∃ ys, (subscribeLoop (some 100) 0 sampleArrivals).yielded
        = ys ++ [some "completed"]) :=
  ⟨by decide,
    (claim_C4_amended (some 100) 0 sampleArrivals).1 "completed" (by decide)⟩

end Wizelit
